import Mathlib

/-!
# CubeFastRendering: the cube triangle strip, the camera matrix and the window procedure

A shallow embedding of `src/main.cpp`.

* Geometry: `cubeVertices`, `cubeIndices` and the primitive assembly that
  `glDrawElementsInstancedBaseVertex(GL_TRIANGLE_STRIP, 14, ...)` performs on them.
* Shader validation: `CheckShader`, `CheckProgram`, `CreateShader`, `CreateProgram`,
  `InitProgram`, `Init`, with the answers of the driver as explicit input.
* Buffers: the `blockSize` computation of `InitBuffer`.
* Window procedure: `WndProc` as a transition function on the globals and function statics
  it touches, and the message pump of `WinMain`.
* Camera: `Camera` over an arbitrary field, with the float primitives (`cos`, `sin`, `tan`,
  `sqrt`, `pi`) passed in, so that the same definition runs over `ℚ` and is reasoned about
  over `ℝ`.
-/

namespace CubeFastRendering

/-! ## Vectors and matrices (the parts of glm that the program uses) -/

/-- Two-component vector, `glm::vec2`. -/
@[ext]
structure vec2 (K : Type) where
  x : K
  y : K
deriving DecidableEq, Repr

/-- Three-component vector, `glm::vec3`. -/
@[ext]
structure vec3 (K : Type) where
  x : K
  y : K
  z : K
deriving DecidableEq, Repr

/-- Four-component vector, `glm::vec4`. -/
@[ext]
structure vec4 (K : Type) where
  x : K
  y : K
  z : K
  w : K
deriving DecidableEq, Repr

/-- Component `v[i]` of a `vec3`. -/
def vec3.get {K : Type} (v : vec3 K) : Fin 3 → K
  | 0 => v.x
  | 1 => v.y
  | 2 => v.z

/-- Component `v[i]` of a `vec4`. -/
def vec4.get {K : Type} (v : vec4 K) : Fin 4 → K
  | 0 => v.x
  | 1 => v.y
  | 2 => v.z
  | 3 => v.w

/-- The first three components of a `vec4`. -/
def vec4.xyz {K : Type} (v : vec4 K) : vec3 K := ⟨v.x, v.y, v.z⟩

/-- Componentwise difference `a - b` of two `vec3`. -/
def vec3.sub {K : Type} [Ring K] (a b : vec3 K) : vec3 K := ⟨a.x - b.x, a.y - b.y, a.z - b.z⟩

/-- Product `v * s` of a `vec3` with a scalar. -/
def vec3.smul {K : Type} [Ring K] (v : vec3 K) (s : K) : vec3 K := ⟨v.x * s, v.y * s, v.z * s⟩

/-- Dot product `glm::dot` of two `vec3`. -/
def vec3.dot {K : Type} [Ring K] (a b : vec3 K) : K := a.x * b.x + a.y * b.y + a.z * b.z

/-- Cross product `glm::cross` of two `vec3`. -/
def vec3.cross {K : Type} [Ring K] (a b : vec3 K) : vec3 K :=
  ⟨a.y * b.z - b.y * a.z, a.z * b.x - b.z * a.x, a.x * b.y - b.x * a.y⟩

/-! ## Geometry table (`main.cpp` lines 24-27 and 57-71) -/

/-- The record `struct Vertex`: one homogeneous position. -/
structure Vertex (K : Type) where
  position : vec4 K
deriving DecidableEq, Repr

/-- The table `cubeVertices`; the float literals `1.0f` and `-1.0f` are the integers 1 and -1. -/
def cubeVertices : List (Vertex ℤ) :=
  [ ⟨⟨ 1,  1,  1, 1⟩⟩,
    ⟨⟨-1,  1,  1, 1⟩⟩,
    ⟨⟨ 1,  1, -1, 1⟩⟩,
    ⟨⟨-1,  1, -1, 1⟩⟩,
    ⟨⟨ 1, -1,  1, 1⟩⟩,
    ⟨⟨-1, -1,  1, 1⟩⟩,
    ⟨⟨-1, -1, -1, 1⟩⟩,
    ⟨⟨ 1, -1, -1, 1⟩⟩ ]

/-- The table `cubeIndices` (`GLuint` values). -/
def cubeIndices : List Nat :=
  [ 3, 2, 6, 7, 4, 2, 0,
    3, 1, 6, 5, 4, 1, 0 ]

/-! ## Triangle-strip assembly (what the draw call of `RenderFrame` does with the tables) -/

/-- The consecutive overlapping index triples `(i[k], i[k+1], i[k+2])` of an index list:
`GL_TRIANGLE_STRIP` makes one triangle of each. -/
def stripTriples : List Nat → List (Nat × Nat × Nat)
  | [] => []
  | a :: t =>
    match t with
    | b :: c :: _ => (a, b, c) :: stripTriples t
    | _ => []

/-- A triangle given by the positions of its three corners. -/
structure Triangle where
  a : vec4 ℤ
  b : vec4 ℤ
  c : vec4 ℤ
deriving DecidableEq, Repr

/-- Fetch the three vertices an index triple refers to; `none` when an index is outside the
vertex table. -/
def fetchTriangle (vs : List (Vertex ℤ)) (t : Nat × Nat × Nat) : Option Triangle :=
  match vs.get? t.1, vs.get? t.2.1, vs.get? t.2.2 with
  | some a, some b, some c => some ⟨a.position, b.position, c.position⟩
  | _, _, _ => none

/-- The OpenGL winding rule of a strip: triangle `k` keeps its vertex order for even `k` and
has its first two vertices swapped for odd `k`. -/
def windTriples : Nat → List (Nat × Nat × Nat) → List (Nat × Nat × Nat)
  | _, [] => []
  | k, t :: ts => (if k % 2 = 0 then t else (t.2.1, t.1, t.2.2)) :: windTriples (k + 1) ts

/-- The triangles of the cube strip, in strip order, as index triples. -/
def cubeStripTriples : List (Nat × Nat × Nat) := stripTriples cubeIndices

/-- The triangles of the cube strip with their vertex positions looked up. -/
def cubeStrip : List Triangle := cubeStripTriples.filterMap (fetchTriangle cubeVertices)

/-- The triangles of the cube strip, wound by the strip rule, with positions looked up. -/
def cubeStripWound : List Triangle :=
  (windTriples 0 cubeStripTriples).filterMap (fetchTriangle cubeVertices)

/-- An index triple repeats a vertex. -/
def repeatsVertex (t : Nat × Nat × Nat) : Prop := t.1 = t.2.1 ∨ t.2.1 = t.2.2 ∨ t.1 = t.2.2

instance (t : Nat × Nat × Nat) : Decidable (repeatsVertex t) := by
  unfold repeatsVertex; infer_instance

/-- The normal `(b - a) x (c - a)` of a triangle; its length is twice the area. -/
def Triangle.normal (t : Triangle) : vec3 ℤ :=
  vec3.cross (vec3.sub t.b.xyz t.a.xyz) (vec3.sub t.c.xyz t.a.xyz)

/-- A triangle is degenerate when it has zero area. -/
def Triangle.degenerate (t : Triangle) : Prop := t.normal = ⟨0, 0, 0⟩

instance (t : Triangle) : Decidable t.degenerate := by
  unfold Triangle.degenerate; infer_instance

/-- The corner positions of a triangle. -/
def Triangle.corners (t : Triangle) : List (vec4 ℤ) := [t.a, t.b, t.c]

/-- A face plane of the cube: coordinate `axis` (0 = x, 1 = y, 2 = z) equal to `sign`. -/
structure Face where
  axis : Fin 3
  sign : ℤ
deriving DecidableEq, Repr

/-- The six face planes `x, y, z = +1, -1`. -/
def cubeFaces : List Face := [⟨0, 1⟩, ⟨0, -1⟩, ⟨1, 1⟩, ⟨1, -1⟩, ⟨2, 1⟩, ⟨2, -1⟩]

/-- A position lies on a face plane. -/
def Face.has (f : Face) (p : vec4 ℤ) : Prop := p.xyz.get f.axis = f.sign

instance (f : Face) (p : vec4 ℤ) : Decidable (f.has p) := by
  unfold Face.has; infer_instance

/-- All three corners of a triangle lie on the face plane. -/
def Face.contains (f : Face) (t : Triangle) : Prop := f.has t.a ∧ f.has t.b ∧ f.has t.c

instance (f : Face) (t : Triangle) : Decidable (f.contains t) := by
  unfold Face.contains; infer_instance

/-- The outward unit normal of a face of the cube centred at the origin. -/
def Face.outward (f : Face) : vec3 ℤ :=
  ⟨if f.axis = 0 then f.sign else 0, if f.axis = 1 then f.sign else 0,
   if f.axis = 2 then f.sign else 0⟩

/-- The corners of a face: the positions of the vertex table that lie on it. -/
def Face.cornersOf (f : Face) : List (vec4 ℤ) :=
  (cubeVertices.map Vertex.position).filter (fun p => decide (f.has p))

/-- Two corners of a face are the ends of a diagonal of that face: both lie on it and they
differ in both coordinates other than the face axis. -/
def Face.diagonal (f : Face) (p q : vec4 ℤ) : Prop :=
  f.has p ∧ f.has q ∧ ∀ ax : Fin 3, ax ≠ f.axis → p.xyz.get ax ≠ q.xyz.get ax

instance (f : Face) (p q : vec4 ℤ) : Decidable (f.diagonal p q) := by
  unfold Face.diagonal; infer_instance

/-- The non-degenerate triangles of the cube strip that lie on a face. -/
def Face.triangles (f : Face) : List Triangle :=
  cubeStrip.filter (fun t => decide (¬ t.degenerate ∧ f.contains t))

/-- The corners two triangles have in common. -/
def Triangle.shared (s t : Triangle) : List (vec4 ℤ) :=
  s.corners.filter (fun p => decide (p ∈ t.corners))

/-! ## Shader validation (`main.cpp` lines 239-312 and 362-445) -/

/-- The constant `GL_FALSE`. -/
def GL_FALSE : Int := 0

/-- The constant `GLEW_OK`. -/
def GLEW_OK : Int := 0

/-- What the driver answers to the queries of `CheckShader` about one shader object, or to
those of `CheckProgram` about the program object. -/
structure ObjectStatus where
  /-- The value written by `glGetShaderiv(GL_COMPILE_STATUS)` or
  `glGetProgramiv(GL_LINK_STATUS)`. -/
  status : Int
  /-- The value written by the `GL_INFO_LOG_LENGTH` query. -/
  maxLength : Int
  /-- The text written by `glGetShaderInfoLog` or `glGetProgramInfoLog`. -/
  infoLog : String
deriving DecidableEq, Repr

/-- The function `CheckShader`: `Except.error` is the thrown `std::runtime_error`. -/
def CheckShader (shader : ObjectStatus) : Except String Unit :=
  let isCompiled := shader.status
  if isCompiled = GL_FALSE then
    let maxLength := shader.maxLength
    if maxLength > 0 then
      throw ("Error compiled:\n" ++ shader.infoLog)
    else pure ()
  else pure ()

/-- The function `CheckProgram`: `Except.error` is the thrown `std::runtime_error`. -/
def CheckProgram (program : ObjectStatus) : Except String Unit :=
  let isLinked := program.status
  if isLinked = GL_FALSE then
    let maxLength := program.maxLength
    if maxLength > 0 then
      throw ("Error linking:\n" ++ program.infoLog)
    else pure ()
  else pure ()

/-- The function `CreateShader`: `isOpen` is `stream.is_open()` for the source file, `shader`
what the driver reports after `glCompileShader`. -/
def CreateShader (filename : String) (isOpen : Bool) (shader : ObjectStatus) :
    Except String Unit := do
  if !isOpen then
    throw ("Could not open file: " ++ filename)
  CheckShader shader

/-- The function `CreateProgram`: `program` is what the driver reports after
`glLinkProgram`. -/
def CreateProgram (program : ObjectStatus) : Except String Unit :=
  CheckProgram program

/-- The answers of the platform and of the driver during `Init`. -/
structure Platform where
  /-- `GetDC(hwnd)` returned a device context. -/
  hdc : Bool
  /-- The result of `ChoosePixelFormat`. -/
  pixelFormat : Int
  /-- The result of `SetPixelFormat`. -/
  setPixelFormat : Bool
  /-- `wglCreateContext` returned a context. -/
  tempCtx : Bool
  /-- `wglMakeCurrent(hdc, tempCtx)` succeeded. -/
  tempCurrent : Bool
  /-- The result of `glewInit`. -/
  glewError : Int
  /-- `wglCreateContextAttribsARB` returned a context. -/
  hglrc : Bool
  /-- `wglMakeCurrent(hdc, hglrc)` succeeded. -/
  current : Bool
  /-- The file `shaders/cube.vert` could be opened. -/
  vertOpen : Bool
  /-- The driver on the vertex shader after compilation. -/
  vs : ObjectStatus
  /-- The file `shaders/cube.frag` could be opened. -/
  fragOpen : Bool
  /-- The driver on the fragment shader after compilation. -/
  fs : ObjectStatus
  /-- The driver on the program after linking. -/
  program : ObjectStatus
  /-- The value of `GL_UNIFORM_BUFFER_OFFSET_ALIGNMENT`. -/
  alignment : Int

/-- The function `InitGL`. -/
def InitGL (p : Platform) : Except String Unit := do
  if !p.hdc then
    throw "GetDC() failed"
  if p.pixelFormat = 0 then
    throw "ChoosePixelFormat() failed"
  if !p.setPixelFormat then
    throw "SetPixelFormat() failed"
  if !p.tempCtx || !p.tempCurrent then
    throw "Creating temp render context failed"
  if p.glewError ≠ GLEW_OK then
    throw ("GLEW Error: " ++ toString p.glewError)
  if !p.hglrc || !p.current then
    throw "Creating render context failed"

/-- The function `InitProgram`. -/
def InitProgram (p : Platform) : Except String Unit := do
  CreateShader "shaders/cube.vert" p.vertOpen p.vs
  CreateShader "shaders/cube.frag" p.fragOpen p.fs
  CreateProgram p.program

/-- The size `sizeof(Transform)`: one `glm::mat4`, 16 floats of 4 bytes. -/
def sizeofTransform : Int := 16 * 4

/-- The function `glm::max` on `GLint`. -/
def glm.max (x y : Int) : Int := if x < y then y else x

/-- The value `blockSize` of `InitBuffer` for the alignment the device reports. -/
def blockSize (alignment : Int) : Int := glm.max sizeofTransform alignment

/-- The function `InitBuffer`: it throws nothing; its result here is the size of the transform
buffer it allocates. -/
def InitBuffer (p : Platform) : Except String Int := pure (blockSize p.alignment)

/-- The function `InitVertexArray`: it throws nothing. -/
def InitVertexArray (_p : Platform) : Except String Unit := pure ()

/-- The function `Init`: `true` when every step returned, `false` when one threw. -/
def Init (p : Platform) : Bool :=
  match (do
    InitGL p
    InitProgram p
    let _ ← InitBuffer p
    InitVertexArray p : Except String Unit) with
  | .ok _ => true
  | .error _ => false

/-- The size `n` rounded up to the next multiple of `a`, `ceil(n / a) * a` in integer
arithmetic (for `a >= 1`). -/
def roundUp (n a : Int) : Int := (n + a - 1) / a * a

/-! ## Window procedure and message pump (`main.cpp` lines 49-51, 137-171, 178-237) -/

/-- The message code `WM_DESTROY`. -/
def WM_DESTROY : Nat := 0x0002
/-- The message code `WM_SIZE`. -/
def WM_SIZE : Nat := 0x0005
/-- The message code `WM_CLOSE`. -/
def WM_CLOSE : Nat := 0x0010
/-- The message code `WM_QUIT`. -/
def WM_QUIT : Nat := 0x0012
/-- The message code `WM_KEYDOWN`. -/
def WM_KEYDOWN : Nat := 0x0100
/-- The message code `WM_MOUSEMOVE`. -/
def WM_MOUSEMOVE : Nat := 0x0200
/-- The message code `WM_LBUTTONDOWN`. -/
def WM_LBUTTONDOWN : Nat := 0x0201
/-- The message code `WM_LBUTTONUP`. -/
def WM_LBUTTONUP : Nat := 0x0202
/-- The key code `VK_ESCAPE`. -/
def VK_ESCAPE : Nat := 0x1B

/-- The Win32 accessor `LOWORD`: the low 16 bits of the parameter. -/
def LOWORD (l : Nat) : Int := ((l % 65536 : Nat) : Int)

/-- The Win32 accessor `HIWORD`: bits 16 to 31 of the parameter. -/
def HIWORD (l : Nat) : Int := ((l / 65536 % 65536 : Nat) : Int)

/-- The record `POINT` (two `LONG`). -/
structure POINT where
  x : Int
  y : Int
deriving DecidableEq, Repr

/-- A window message as `WndProc` receives it; `wParam` and `lParam` as bit patterns. -/
structure MSG where
  message : Nat
  wParam : Nat
  lParam : Nat
deriving DecidableEq, Repr

/-- The globals and function statics that `WndProc` reads and writes. The float components of
`rotation` are taken in a ring `K`, with exact arithmetic. -/
structure WndState (K : Type) where
  windowWidth : Int
  windowHeight : Int
  rotation : vec2 K
  lastMousePos : POINT
  currentMousePos : POINT
  isLeftMouseBtnOn : Bool
  /-- The number of calls of `PostQuitMessage` so far. -/
  quitPosted : Nat

/-- The state at program start: the initialisers of the globals and of the statics. -/
def WndState.initial (K : Type) [Ring K] : WndState K :=
  { windowWidth := 1280, windowHeight := 720, rotation := ⟨0, 0⟩,
    lastMousePos := ⟨0, 0⟩, currentMousePos := ⟨0, 0⟩, isLeftMouseBtnOn := false,
    quitPosted := 0 }

/-- The function `WndProc` as a transition on the state (its `LRESULT` is not modelled). -/
def WndProc {K : Type} [Ring K] (s : WndState K) (m : MSG) : WndState K :=
  if m.message = WM_DESTROY ∨ m.message = WM_CLOSE then
    { s with quitPosted := s.quitPosted + 1 }
  else if m.message = WM_SIZE then
    { s with windowWidth := LOWORD m.lParam, windowHeight := HIWORD m.lParam }
  else if m.message = WM_KEYDOWN then
    if m.wParam = VK_ESCAPE then { s with quitPosted := s.quitPosted + 1 } else s
  else if m.message = WM_LBUTTONDOWN then
    { s with
      currentMousePos := ⟨LOWORD m.lParam, HIWORD m.lParam⟩,
      lastMousePos := ⟨LOWORD m.lParam, HIWORD m.lParam⟩,
      isLeftMouseBtnOn := true }
  else if m.message = WM_LBUTTONUP then
    { s with isLeftMouseBtnOn := false }
  else if m.message = WM_MOUSEMOVE then
    let currentMousePos : POINT := ⟨LOWORD m.lParam, HIWORD m.lParam⟩
    let rotation : vec2 K :=
      if s.isLeftMouseBtnOn then
        ⟨s.rotation.x - ((currentMousePos.x - s.lastMousePos.x : Int) : K),
         s.rotation.y - ((currentMousePos.y - s.lastMousePos.y : Int) : K)⟩
      else s.rotation
    { s with
      currentMousePos := currentMousePos,
      rotation := rotation,
      lastMousePos := currentMousePos }
  else s

/-- Deliver a sequence of messages to `WndProc`, one after the other. -/
def deliver {K : Type} [Ring K] (s : WndState K) (ms : List MSG) : WndState K :=
  ms.foldl WndProc s

/-- One turn of the loop of `WinMain`: `PeekMessage` found a message or found none. -/
inductive Tick where
  | message (m : MSG)
  | idle
deriving DecidableEq, Repr

/-- The loop of `WinMain`: a message is dispatched to `WndProc` (the loop ends once the message
is `WM_QUIT`), an idle turn calls `RenderFrame`, which calls `Camera`. The result lists the
states in which `Camera` is called, in order. -/
def pump {K : Type} [Ring K] : WndState K → List Tick → List (WndState K)
  | _, [] => []
  | s, Tick.idle :: rest => s :: pump s rest
  | s, Tick.message m :: rest =>
    if m.message = WM_QUIT then [] else pump (WndProc s m) rest

/-! ## The glm functions used by `Camera`

The glm library is not part of the repository; these definitions follow its published
sources (`glm/ext/matrix_transform.inl`, `glm/ext/matrix_clip_space.inl`,
`glm/detail/type_mat4x4.inl`), for the default configuration the program compiles with
(right-handed, depth range -1 to 1). A `mat4` is four column vectors, `m[c][r]` being row `r`
of column `c`. -/

/-- The float primitives glm calls, over the scalar type `K`. -/
structure FloatOps (K : Type) where
  cos : K → K
  sin : K → K
  tan : K → K
  sqrt : K → K
  pi : K

/-- Sum of two `vec4`. -/
def vec4.add {K : Type} [Field K] (a b : vec4 K) : vec4 K :=
  ⟨a.x + b.x, a.y + b.y, a.z + b.z, a.w + b.w⟩

/-- Product `v * s` of a `vec4` with a scalar. -/
def vec4.smul {K : Type} [Field K] (v : vec4 K) (s : K) : vec4 K :=
  ⟨v.x * s, v.y * s, v.z * s, v.w * s⟩

/-- The matrix type `glm::mat4`: the columns `m[0]`, `m[1]`, `m[2]`, `m[3]`. -/
@[ext]
structure mat4 (K : Type) where
  c0 : vec4 K
  c1 : vec4 K
  c2 : vec4 K
  c3 : vec4 K
deriving DecidableEq, Repr

/-- Column `m[c]` of a matrix. -/
def mat4.col {K : Type} (m : mat4 K) : Fin 4 → vec4 K
  | 0 => m.c0
  | 1 => m.c1
  | 2 => m.c2
  | 3 => m.c3

/-- The matrix `glm::mat4(1.0f)`: the identity. -/
def mat4.identity {K : Type} [Field K] : mat4 K :=
  ⟨⟨1, 0, 0, 0⟩, ⟨0, 1, 0, 0⟩, ⟨0, 0, 1, 0⟩, ⟨0, 0, 0, 1⟩⟩

/-- The product `m1 * m2` of glm: column `c` of the result is the combination of the columns of
`m1` with the entries of column `c` of `m2`. -/
def mat4.mul {K : Type} [Field K] (m1 m2 : mat4 K) : mat4 K :=
  let comb (b : vec4 K) : vec4 K :=
    ((((m1.c0.smul b.x).add (m1.c1.smul b.y)).add (m1.c2.smul b.z)).add (m1.c3.smul b.w))
  ⟨comb m2.c0, comb m2.c1, comb m2.c2, comb m2.c3⟩

instance {K : Type} [Field K] : Mul (mat4 K) := ⟨mat4.mul⟩

/-- The function `glm::radians`. -/
def glm.radians {K : Type} [Field K] (ops : FloatOps K) (degrees : K) : K :=
  degrees * (ops.pi / 180)

/-- The function `glm::inversesqrt`. -/
def glm.inversesqrt {K : Type} [Field K] (ops : FloatOps K) (x : K) : K := 1 / ops.sqrt x

/-- The function `glm::normalize` on `vec3`. -/
def glm.normalize {K : Type} [Field K] (ops : FloatOps K) (v : vec3 K) : vec3 K :=
  v.smul (glm.inversesqrt ops (v.dot v))

/-- The function `glm::perspective` (`perspectiveRH_NO`); its debug-build assertion on the
aspect is not part of the value and is left out. -/
def glm.perspective {K : Type} [Field K] (ops : FloatOps K) (fovy aspect zNear zFar : K) :
    mat4 K :=
  let tanHalfFovy := ops.tan (fovy / 2)
  { c0 := ⟨1 / (aspect * tanHalfFovy), 0, 0, 0⟩,
    c1 := ⟨0, 1 / tanHalfFovy, 0, 0⟩,
    c2 := ⟨0, 0, -(zFar + zNear) / (zFar - zNear), -1⟩,
    c3 := ⟨0, 0, -(2 * zFar * zNear) / (zFar - zNear), 0⟩ }

/-- The function `glm::translate`. -/
def glm.translate {K : Type} [Field K] (m : mat4 K) (v : vec3 K) : mat4 K :=
  { m with c3 := (((m.c0.smul v.x).add (m.c1.smul v.y)).add (m.c2.smul v.z)).add m.c3 }

/-- The function `glm::rotate`. -/
def glm.rotate {K : Type} [Field K] (ops : FloatOps K) (m : mat4 K) (angle : K) (v : vec3 K) :
    mat4 K :=
  let a := angle
  let c := ops.cos a
  let s := ops.sin a
  let axis := glm.normalize ops v
  let temp := axis.smul (1 - c)
  let Rotate00 := c + temp.x * axis.x
  let Rotate01 := temp.x * axis.y + s * axis.z
  let Rotate02 := temp.x * axis.z - s * axis.y
  let Rotate10 := temp.y * axis.x - s * axis.z
  let Rotate11 := c + temp.y * axis.y
  let Rotate12 := temp.y * axis.z + s * axis.x
  let Rotate20 := temp.z * axis.x + s * axis.y
  let Rotate21 := temp.z * axis.y - s * axis.x
  let Rotate22 := c + temp.z * axis.z
  { c0 := ((m.c0.smul Rotate00).add (m.c1.smul Rotate01)).add (m.c2.smul Rotate02),
    c1 := ((m.c0.smul Rotate10).add (m.c1.smul Rotate11)).add (m.c2.smul Rotate12),
    c2 := ((m.c0.smul Rotate20).add (m.c1.smul Rotate21)).add (m.c2.smul Rotate22),
    c3 := m.c3 }

/-- The function `glm::scale`. -/
def glm.scale {K : Type} [Field K] (m : mat4 K) (v : vec3 K) : mat4 K :=
  { c0 := m.c0.smul v.x, c1 := m.c1.smul v.y, c2 := m.c2.smul v.z, c3 := m.c3 }

/-! ## The camera (`main.cpp` lines 447-456) -/

/-- The function `Camera`; the globals `windowWidth` and `windowHeight` it reads are
arguments. The float literals are the rationals they denote. -/
def Camera {K : Type} [Field K] (ops : FloatOps K) (windowWidth windowHeight : Int)
    (Translate : K) (Rotate : vec2 K) : mat4 K :=
  let aspectRatio : K := (windowWidth : K) / (windowHeight : K)
  let projection := glm.perspective ops (ops.pi * (1 / 4)) aspectRatio (1 / 10) 100
  let view := glm.translate mat4.identity ⟨0, 0, -Translate⟩
  let view := glm.rotate ops view (glm.radians ops (-Rotate.y)) ⟨1, 0, 0⟩
  let view := glm.rotate ops view (glm.radians ops (-Rotate.x)) ⟨0, 1, 0⟩
  let model := glm.scale mat4.identity ⟨1 / 2, 1 / 2, 1 / 2⟩
  projection * view * model

/-- The call `Camera(5.0f, rotation)` of `RenderFrame` in a given state of the globals. -/
def RenderFrame_MVP {K : Type} [Field K] (ops : FloatOps K) (s : WndState K) : mat4 K :=
  Camera ops s.windowWidth s.windowHeight 5 s.rotation

/-! ## The matrices the specification names (section 4.4)

These follow the words of the specification, not the code: the standard perspective,
translation, axis rotation and scaling matrices, with angles in degrees. -/

namespace Spec

/-- The perspective matrix for a vertical field of view in degrees. -/
def Perspective {K : Type} [Field K] (ops : FloatOps K) (fovDegrees aspect near far : K) :
    mat4 K :=
  let f := 1 / ops.tan (fovDegrees * (ops.pi / 180) / 2)
  { c0 := ⟨f / aspect, 0, 0, 0⟩,
    c1 := ⟨0, f, 0, 0⟩,
    c2 := ⟨0, 0, (far + near) / (near - far), -1⟩,
    c3 := ⟨0, 0, 2 * far * near / (near - far), 0⟩ }

/-- The translation matrix by `(x, y, z)`. -/
def Translate {K : Type} [Field K] (x y z : K) : mat4 K :=
  ⟨⟨1, 0, 0, 0⟩, ⟨0, 1, 0, 0⟩, ⟨0, 0, 1, 0⟩, ⟨x, y, z, 1⟩⟩

/-- The rotation matrix about the x axis by an angle in degrees. -/
def RotateX {K : Type} [Field K] (ops : FloatOps K) (degrees : K) : mat4 K :=
  let c := ops.cos (degrees * (ops.pi / 180))
  let s := ops.sin (degrees * (ops.pi / 180))
  ⟨⟨1, 0, 0, 0⟩, ⟨0, c, s, 0⟩, ⟨0, -s, c, 0⟩, ⟨0, 0, 0, 1⟩⟩

/-- The rotation matrix about the y axis by an angle in degrees. -/
def RotateY {K : Type} [Field K] (ops : FloatOps K) (degrees : K) : mat4 K :=
  let c := ops.cos (degrees * (ops.pi / 180))
  let s := ops.sin (degrees * (ops.pi / 180))
  ⟨⟨c, 0, -s, 0⟩, ⟨0, 1, 0, 0⟩, ⟨s, 0, c, 0⟩, ⟨0, 0, 0, 1⟩⟩

/-- The uniform scaling matrix by the factor `k`. -/
def Scale {K : Type} [Field K] (k : K) : mat4 K :=
  ⟨⟨k, 0, 0, 0⟩, ⟨0, k, 0, 0⟩, ⟨0, 0, k, 0⟩, ⟨0, 0, 0, 1⟩⟩

/-- The composition as the specification writes it:
`Perspective * Translate(0,0,-d) * RotateY(-rx) * RotateX(-ry) * Scale(0.5)`. -/
def MVP_stated {K : Type} [Field K] (ops : FloatOps K) (width height : Int) (d : K)
    (rotation : vec2 K) : mat4 K :=
  Perspective ops 45 ((width : K) / (height : K)) (1 / 10) 100 * Translate 0 0 (-d)
    * RotateY ops (-rotation.x) * RotateX ops (-rotation.y) * Scale (1 / 2)

/-- The composition with the two rotations in the other order:
`Perspective * Translate(0,0,-d) * RotateX(-ry) * RotateY(-rx) * Scale(0.5)`. -/
def MVP_xy {K : Type} [Field K] (ops : FloatOps K) (width height : Int) (d : K)
    (rotation : vec2 K) : mat4 K :=
  Perspective ops 45 ((width : K) / (height : K)) (1 / 10) 100 * Translate 0 0 (-d)
    * RotateX ops (-rotation.y) * RotateY ops (-rotation.x) * Scale (1 / 2)

end Spec

/-- A run of `Init` in which every step succeeds except that the driver reports the vertex
shader as not compiled and the program as not linked, both with an empty info log. -/
def silentFailure : Platform :=
  { hdc := true, pixelFormat := 1, setPixelFormat := true, tempCtx := true,
    tempCurrent := true, glewError := GLEW_OK, hglrc := true, current := true,
    vertOpen := true, vs := ⟨GL_FALSE, 0, ""⟩,
    fragOpen := true, fs := ⟨1, 0, ""⟩,
    program := ⟨GL_FALSE, 0, ""⟩, alignment := 256 }

/-! ## Geometry: theorems -/

/-- Claim C2. `cubeIndices` has exactly 14 entries, `cubeVertices` has 8, every index is
strictly below 8, and so the lookup of every strip index in the vertex table succeeds. -/
theorem cubeIndices_in_range :
    cubeIndices.length = 14 ∧ cubeVertices.length = 8 ∧
    (∀ i ∈ cubeIndices, i < cubeVertices.length) ∧
    (∀ i ∈ cubeIndices, (cubeVertices.get? i).isSome = true) := by
  decide

/-- Claim C3. Decoded as a triangle strip, `cubeIndices` gives 12 triangles that cover the six
cube faces exactly: every non-degenerate triangle has its three corners on one face plane;
each face plane receives exactly two such triangles, which share two corners that are the ends
of a diagonal of the face and together use exactly the four corners of the face; and every
triangle that lies on no face plane is degenerate. -/
theorem strip_covers_six_faces :
    cubeStripTriples.length = 12 ∧ cubeStrip.length = 12 ∧
    (∀ t ∈ cubeStrip, ¬ t.degenerate → ∃ f ∈ cubeFaces, f.contains t) ∧
    (∀ f ∈ cubeFaces, f.triangles.length = 2 ∧
      (∀ s ∈ f.triangles, ∀ t ∈ f.triangles, s ≠ t →
        (s.shared t).length = 2 ∧
        ∀ p ∈ s.shared t, ∀ q ∈ s.shared t, p ≠ q → f.diagonal p q) ∧
      f.cornersOf.length = 4 ∧
      (∀ p ∈ f.cornersOf, ∃ t ∈ f.triangles, p ∈ t.corners) ∧
      (∀ t ∈ f.triangles, ∀ p ∈ t.corners, p ∈ f.cornersOf)) ∧
    (∀ t ∈ cubeStrip, (¬ ∃ f ∈ cubeFaces, f.contains t) → t.degenerate) := by
  decide

/-- Claim C4, refuted as stated. The number of degenerate triangles among the 12 index triples
of the strip is not 2, neither counting triples that repeat a vertex nor counting triangles of
zero area: both counts are 0. -/
theorem strip_degenerate_count_ne_two :
    (cubeStripTriples.filter (fun t => decide (repeatsVertex t))).length = 0 ∧
    (cubeStrip.filter (fun t => decide t.degenerate)).length = 0 ∧
    ¬ (cubeStripTriples.filter (fun t => decide (repeatsVertex t))).length = 2 ∧
    ¬ (cubeStrip.filter (fun t => decide t.degenerate)).length = 2 := by
  decide

/-- Claim C4, amended. The strip has 12 index triples and none of them is degenerate: no triple
repeats a vertex and every triangle has non-zero area. Each triangle lies on a face plane, and
each triangle shares two corners (an edge) with the next one, so the strip passes from face to
face over shared edges. -/
theorem strip_has_no_degenerate_triangle :
    cubeStripTriples.length = 12 ∧ cubeStrip.length = 12 ∧
    (∀ t ∈ cubeStripTriples, ¬ repeatsVertex t) ∧
    (∀ t ∈ cubeStrip, ¬ t.degenerate) ∧
    (∀ t ∈ cubeStrip, ∃ f ∈ cubeFaces, f.contains t) ∧
    (∀ p ∈ cubeStrip.zip cubeStrip.tail, (p.1.shared p.2).length = 2) := by
  decide

/-- Claim C9. With the strip winding rule applied (first two vertices swapped for odd `k`),
each of the 12 triangles lies on a face plane of the cube and its normal `(b - a) x (c - a)`
is a positive multiple of the outward normal of that face. -/
theorem strip_wound_outward :
    cubeStripWound.length = 12 ∧
    ∀ t ∈ cubeStripWound, ∃ f ∈ cubeFaces, f.contains t ∧
      ∃ k : ℤ, 0 < k ∧ t.normal = f.outward.smul k := by
  have h : ∀ t ∈ cubeStripWound, ∃ f ∈ cubeFaces, f.contains t ∧
      t.normal = f.outward.smul 4 := by decide
  refine ⟨by decide, fun t ht => ?_⟩
  obtain ⟨f, hf, hc, hn⟩ := h t ht
  exact ⟨f, hf, hc, 4, by decide, hn⟩

/-! ## Shader validation: theorems -/

/-- The function `CheckShader` raises exactly when the compile status is `GL_FALSE` and the
info log is not empty. -/
theorem CheckShader_raises_iff (shader : ObjectStatus) :
    (∃ e, CheckShader shader = Except.error e) ↔
      shader.status = GL_FALSE ∧ 0 < shader.maxLength := by
  unfold CheckShader
  by_cases h1 : shader.status = GL_FALSE <;> by_cases h2 : shader.maxLength > 0 <;>
    simp [h1, h2, throw, throwThe, MonadExceptOf.throw, pure, Except.pure]

/-- The function `CheckProgram` raises exactly when the link status is `GL_FALSE` and the info
log is not empty. -/
theorem CheckProgram_raises_iff (program : ObjectStatus) :
    (∃ e, CheckProgram program = Except.error e) ↔
      program.status = GL_FALSE ∧ 0 < program.maxLength := by
  unfold CheckProgram
  by_cases h1 : program.status = GL_FALSE <;> by_cases h2 : program.maxLength > 0 <;>
    simp [h1, h2, throw, throwThe, MonadExceptOf.throw, pure, Except.pure]

/-- Claim C5, evaluated at the failing input. With the compile status of the vertex shader and
the link status of the program both `GL_FALSE` and both info logs empty, `CheckShader` and
`CheckProgram` return without raising, and `Init` returns `true`. -/
theorem Init_silentFailure :
    silentFailure.vs.status = GL_FALSE ∧ silentFailure.program.status = GL_FALSE ∧
    CheckShader silentFailure.vs = Except.ok () ∧
    CheckProgram silentFailure.program = Except.ok () ∧
    Init silentFailure = true :=
  ⟨rfl, rfl, rfl, rfl, rfl⟩

/-! ## Transform buffer size: theorems -/

/-- For an alignment of at least 64, rounding 64 up to a multiple of it gives the alignment. -/
theorem roundUp_of_le (a : Int) (ha : 64 ≤ a) : roundUp sizeofTransform a = a := by
  have h1 : (64 + a - 1) / a = 1 := by
    have h2 : (64 + a - 1) = 63 + 1 * a := by ring
    rw [h2, Int.add_mul_ediv_right _ _ (by omega), Int.ediv_eq_zero_of_lt (by omega) (by omega)]
    rfl
  simp only [roundUp, sizeofTransform]
  norm_num
  rw [h1]; ring

/-- Claim C6, refuted as stated. For the alignment 48 the buffer gets `blockSize = 64` bytes,
while 64 rounded up to the next multiple of 48 is 96. -/
theorem blockSize_below_rounded :
    blockSize 48 = 64 ∧ roundUp sizeofTransform 48 = 96 ∧
    ¬ (roundUp sizeofTransform 48 ≤ blockSize 48) := by
  decide

/-- Claim C6, amended. For every alignment `a >= 1`, `blockSize` is the larger of 64 and `a`,
and it reaches 64 rounded up to the next multiple of `a` exactly when `a` divides 64 or
`a >= 64`. -/
theorem blockSize_rounded_iff (a : Int) (ha : 1 ≤ a) :
    blockSize a = max sizeofTransform a ∧
    (roundUp sizeofTransform a ≤ blockSize a ↔ (a ∣ sizeofTransform ∨ sizeofTransform ≤ a)) := by
  constructor
  · simp only [blockSize, glm.max, sizeofTransform]
    split <;> omega
  · by_cases h : 64 ≤ a
    · rw [roundUp_of_le a h]
      simp only [blockSize, glm.max, sizeofTransform]
      constructor
      · intro _; right; norm_num; exact h
      · intro _; split <;> omega
    · have h2 : a < 64 := by omega
      interval_cases a <;> decide

/-- Claim C6, amended, at the alignment 256: the buffer gets 256 bytes, which is 64 rounded up
to a multiple of 256. -/
theorem blockSize_rounded_iff_witness :
    (1 : Int) ≤ 256 ∧ blockSize 256 = max sizeofTransform 256 ∧
    roundUp sizeofTransform 256 ≤ blockSize 256 :=
  ⟨by decide, (blockSize_rounded_iff 256 (by decide)).1,
    (blockSize_rounded_iff 256 (by decide)).2.mpr (Or.inr (by decide))⟩

/-! ## Window procedure: theorems -/

/-- Delivering a list of messages delivers the first and then the rest. -/
theorem deliver_cons {K : Type} [Ring K] (s : WndState K) (m : MSG) (ms : List MSG) :
    deliver s (m :: ms) = deliver (WndProc s m) ms := rfl

/-- The effect of one `WM_MOUSEMOVE` while the left button is down. -/
theorem WndProc_mousemove {K : Type} [Ring K] (s : WndState K) (m : MSG)
    (hm : m.message = WM_MOUSEMOVE) (hon : s.isLeftMouseBtnOn = true) :
    (WndProc s m).isLeftMouseBtnOn = true ∧
    (WndProc s m).lastMousePos = ⟨LOWORD m.lParam, HIWORD m.lParam⟩ ∧
    (WndProc s m).rotation.x =
      s.rotation.x - ((LOWORD m.lParam - s.lastMousePos.x : Int) : K) ∧
    (WndProc s m).rotation.y =
      s.rotation.y - ((HIWORD m.lParam - s.lastMousePos.y : Int) : K) := by
  simp [WndProc, hm, hon, WM_MOUSEMOVE, WM_DESTROY, WM_CLOSE, WM_SIZE, WM_KEYDOWN,
    WM_LBUTTONDOWN, WM_LBUTTONUP]

/-- The effect of `WM_LBUTTONDOWN`. -/
theorem WndProc_lbuttondown {K : Type} [Ring K] (s : WndState K) (m : MSG)
    (hm : m.message = WM_LBUTTONDOWN) :
    (WndProc s m).isLeftMouseBtnOn = true ∧
    (WndProc s m).lastMousePos = ⟨LOWORD m.lParam, HIWORD m.lParam⟩ ∧
    (WndProc s m).rotation = s.rotation := by
  simp [WndProc, hm, WM_MOUSEMOVE, WM_DESTROY, WM_CLOSE, WM_SIZE, WM_KEYDOWN,
    WM_LBUTTONDOWN, WM_LBUTTONUP]

/-- A run of `WM_MOUSEMOVE` messages with the button down moves the rotation by the negated
displacement from the last recorded position (that of message `d`) to the final one. -/
theorem deliver_moves {K : Type} [Ring K] (moves : List MSG) (s : WndState K) (d : MSG)
    (hon : s.isLeftMouseBtnOn = true)
    (hlast : s.lastMousePos = ⟨LOWORD d.lParam, HIWORD d.lParam⟩)
    (hmoves : ∀ m ∈ moves, m.message = WM_MOUSEMOVE) :
    (deliver s moves).rotation.x = s.rotation.x -
      ((LOWORD (moves.getLast?.getD d).lParam - LOWORD d.lParam : Int) : K) ∧
    (deliver s moves).rotation.y = s.rotation.y -
      ((HIWORD (moves.getLast?.getD d).lParam - HIWORD d.lParam : Int) : K) := by
  induction moves generalizing s d with
  | nil => simp [deliver]
  | cons m ms ih =>
    obtain ⟨h1, h2, h3, h4⟩ := WndProc_mousemove s m (hmoves m (List.mem_cons_self _ _)) hon
    obtain ⟨i1, i2⟩ := ih (WndProc s m) m h1 h2
      (fun x hx => hmoves x (List.mem_cons_of_mem _ hx))
    have hl : (m :: ms).getLast?.getD d = ms.getLast?.getD m := by
      cases ms <;> simp [List.getLast?]
    rw [deliver_cons, i1, i2, h3, h4, hl, hlast]
    constructor <;> push_cast <;> abel

/-- Claim C7. After a `WM_LBUTTONDOWN` followed by any sequence of `WM_MOUSEMOVE` messages
(so with no `WM_LBUTTONUP` in between), from any state, `rotation.x` has decreased by exactly
`xn - x0` and `rotation.y` by `yn - y0`, where `(x0, y0)` is the point of the button message
and `(xn, yn)` the point of the last message, each read by `LOWORD` and `HIWORD` and so in
0..65535; the intermediate points do not occur in the result. In particular a drag of +100
pixels in x and 0 in y decreases `rotation.x` by 100 and leaves `rotation.y` unchanged. -/
theorem drag_rotation {K : Type} [Ring K] (s : WndState K) (down : MSG) (moves : List MSG)
    (hdown : down.message = WM_LBUTTONDOWN)
    (hmoves : ∀ m ∈ moves, m.message = WM_MOUSEMOVE) :
    (deliver s (down :: moves)).rotation.x = s.rotation.x -
      ((LOWORD (moves.getLast?.getD down).lParam - LOWORD down.lParam : Int) : K) ∧
    (deliver s (down :: moves)).rotation.y = s.rotation.y -
      ((HIWORD (moves.getLast?.getD down).lParam - HIWORD down.lParam : Int) : K) ∧
    (LOWORD (moves.getLast?.getD down).lParam = LOWORD down.lParam + 100 →
      HIWORD (moves.getLast?.getD down).lParam = HIWORD down.lParam →
      (deliver s (down :: moves)).rotation.x = s.rotation.x - 100 ∧
      (deliver s (down :: moves)).rotation.y = s.rotation.y) := by
  obtain ⟨h1, h2, h3⟩ := WndProc_lbuttondown s down hdown
  obtain ⟨e1, e2⟩ := deliver_moves moves (WndProc s down) down h1 h2 hmoves
  rw [deliver_cons, e1, e2, h3]
  refine ⟨rfl, rfl, fun hx hy => ?_⟩
  rw [hx, hy]
  constructor <;> simp

/-- Claim C7 at a concrete drag: button down at (200, 300), moves to (250, 310) and then to
(300, 300), from the initial state; `rotation` ends at (-100, 0). -/
theorem drag_rotation_witness :
    (deliver (WndState.initial ℚ)
      [⟨WM_LBUTTONDOWN, 1, 200 + 65536 * 300⟩, ⟨WM_MOUSEMOVE, 1, 250 + 65536 * 310⟩,
       ⟨WM_MOUSEMOVE, 1, 300 + 65536 * 300⟩]).rotation.x = 0 - 100 ∧
    (deliver (WndState.initial ℚ)
      [⟨WM_LBUTTONDOWN, 1, 200 + 65536 * 300⟩, ⟨WM_MOUSEMOVE, 1, 250 + 65536 * 310⟩,
       ⟨WM_MOUSEMOVE, 1, 300 + 65536 * 300⟩]).rotation.y = 0 := by
  have h := drag_rotation (WndState.initial ℚ) ⟨WM_LBUTTONDOWN, 1, 200 + 65536 * 300⟩
    [⟨WM_MOUSEMOVE, 1, 250 + 65536 * 310⟩, ⟨WM_MOUSEMOVE, 1, 300 + 65536 * 300⟩] rfl
    (by decide)
  refine ⟨h.1.trans ?_, h.2.1.trans ?_⟩ <;>
    norm_num [WndState.initial, LOWORD, HIWORD, List.getLast?]

/-- A `WM_SIZE` message of height 0 is the only way to a zero height: from a state of non-zero
height, along a run in which no `WM_SIZE` message carries the height 0, `windowHeight` is
non-zero in every state in which `Camera` is called. -/
theorem pump_height_ne_zero {K : Type} [Ring K] (ticks : List Tick) (s0 : WndState K)
    (h0 : s0.windowHeight ≠ 0)
    (hsize : ∀ m, Tick.message m ∈ ticks → m.message = WM_SIZE → HIWORD m.lParam ≠ 0) :
    ∀ s ∈ pump s0 ticks, s.windowHeight ≠ 0 := by
  induction ticks generalizing s0 with
  | nil => simp [pump]
  | cons t ts ih =>
    cases t with
    | idle =>
      intro s hs
      simp only [pump, List.mem_cons] at hs
      rcases hs with rfl | hs
      · exact h0
      · exact ih s0 h0 (fun m hm => hsize m (List.mem_cons_of_mem _ hm)) s hs
    | message m =>
      intro s hs
      simp only [pump] at hs
      split at hs
      · simp at hs
      · refine ih (WndProc s0 m) ?_ (fun m hm => hsize m (List.mem_cons_of_mem _ hm)) s hs
        have hm := hsize m (List.mem_cons_self _ _)
        unfold WndProc
        split_ifs <;> simp_all

/-- Claim C10, evaluated at the failing input. From the initial 1280x720 state, a `WM_SIZE`
message whose `lParam` is 0 (what a minimised window receives) followed by one idle turn of the
loop makes `RenderFrame` call `Camera` exactly once, in a state with `windowWidth = 0` and
`windowHeight = 0`: the aspect-ratio division of `Camera` then divides by zero. -/
theorem windowHeight_zero_after_minimize :
    (WndProc (WndState.initial ℚ) ⟨WM_SIZE, 1, 0⟩).windowHeight = 0 ∧
    (pump (WndState.initial ℚ) [Tick.message ⟨WM_SIZE, 1, 0⟩, Tick.idle]).map
      (fun s => (s.windowWidth, s.windowHeight)) = [(0, 0)] := by
  decide

/-! ## Camera: theorems

The statements over exact real arithmetic take the float primitives to be the real functions:
the argument `⟨Real.cos, Real.sin, Real.tan, Real.sqrt, Real.pi⟩` of `Camera`. -/

/-- The product of `mat4` is the function `mat4.mul`. -/
theorem mat4.mul_def {K : Type} [Field K] (a b : mat4 K) : a * b = mat4.mul a b := rfl

/-- The product of `mat4` is associative. -/
theorem mat4.mul_assoc {K : Type} [Field K] (a b c : mat4 K) : a * b * c = a * (b * c) := by
  simp only [mat4.mul_def, mat4.mul, vec4.add, vec4.smul]
  ext <;> simp only <;> ring

/-- Translating the identity gives the translation matrix. -/
theorem glm.translate_identity {K : Type} [Field K] (v : vec3 K) :
    glm.translate mat4.identity v = Spec.Translate v.x v.y v.z := by
  simp only [glm.translate, mat4.identity, Spec.Translate, vec4.add, vec4.smul]
  ext <;> simp

/-- Scaling the identity uniformly gives the scaling matrix. -/
theorem glm.scale_identity {K : Type} [Field K] (k : K) :
    glm.scale mat4.identity ⟨k, k, k⟩ = Spec.Scale k := by
  simp only [glm.scale, mat4.identity, Spec.Scale, vec4.smul]
  ext <;> simp

/-- The call `glm::rotate(m, radians(deg), (1,0,0))` multiplies `m` on the right by the
rotation about the x axis. -/
theorem glm.rotate_x {K : Type} [Field K] (ops : FloatOps K) (hsqrt : ops.sqrt 1 = 1)
    (m : mat4 K) (degrees : K) :
    glm.rotate ops m (glm.radians ops degrees) ⟨1, 0, 0⟩ = m * Spec.RotateX ops degrees := by
  simp only [glm.rotate, glm.radians, glm.normalize, glm.inversesqrt, Spec.RotateX,
    mat4.mul_def, mat4.mul, vec4.add, vec4.smul, vec3.smul, vec3.dot]
  ext <;> simp [hsqrt]

/-- The call `glm::rotate(m, radians(deg), (0,1,0))` multiplies `m` on the right by the
rotation about the y axis. -/
theorem glm.rotate_y {K : Type} [Field K] (ops : FloatOps K) (hsqrt : ops.sqrt 1 = 1)
    (m : mat4 K) (degrees : K) :
    glm.rotate ops m (glm.radians ops degrees) ⟨0, 1, 0⟩ = m * Spec.RotateY ops degrees := by
  simp only [glm.rotate, glm.radians, glm.normalize, glm.inversesqrt, Spec.RotateY,
    mat4.mul_def, mat4.mul, vec4.add, vec4.smul, vec3.smul, vec3.dot]
  ext <;> simp [hsqrt]

/-- The matrix of `glm::perspective` is the perspective matrix of the specification. -/
theorem glm.perspective_eq {K : Type} [Field K] (ops : FloatOps K) (fovy degrees : K)
    (hfov : fovy = degrees * (ops.pi / 180)) (aspect near far : K) :
    glm.perspective ops fovy aspect near far =
      Spec.Perspective ops degrees aspect near far := by
  subst hfov
  simp only [glm.perspective, Spec.Perspective]
  ext <;> simp only
  · rw [div_div, mul_comm]
  · rw [← neg_sub far near, div_neg, neg_div]
  · rw [← neg_sub far near, div_neg, neg_div]

/-- Over any field in which the square root of 1 is 1 and a quarter of pi is 45 degrees,
`Camera` is the composition with the x rotation before the y rotation. -/
theorem Camera_eq_MVP_xy {K : Type} [Field K] (ops : FloatOps K) (hsqrt : ops.sqrt 1 = 1)
    (hfov : ops.pi * (1 / 4) = 45 * (ops.pi / 180))
    (w h : Int) (d : K) (r : vec2 K) :
    Camera ops w h d r = Spec.MVP_xy ops w h d r := by
  simp only [Camera, Spec.MVP_xy]
  rw [glm.translate_identity, glm.rotate_x ops hsqrt, glm.rotate_y ops hsqrt,
    glm.scale_identity, glm.perspective_eq ops _ 45 hfov]
  simp only [mat4.mul_assoc]

/-- The angle of -90 degrees in radians. -/
theorem quarter_turn : (-90 : ℝ) * (Real.pi / 180) = -(Real.pi / 2) := by ring

/-- Claim C1, refuted as stated. For the 1280x720 window, distance 5 and rotation (90, 90),
entry `[0][3]` of `Camera` is 0 while that of the stated composition
`Perspective * Translate * RotateY(-rx) * RotateX(-ry) * Scale(0.5)` is -1/2, so the two
matrices differ. -/
theorem Camera_ne_stated :
    (Camera ⟨Real.cos, Real.sin, Real.tan, Real.sqrt, Real.pi⟩ 1280 720 5 ⟨90, 90⟩).c0.w = 0 ∧
    (Spec.MVP_stated ⟨Real.cos, Real.sin, Real.tan, Real.sqrt, Real.pi⟩ 1280 720 5 ⟨90, 90⟩).c0.w = -(1 / 2) ∧
    Camera ⟨Real.cos, Real.sin, Real.tan, Real.sqrt, Real.pi⟩ 1280 720 5 ⟨90, 90⟩ ≠
      Spec.MVP_stated ⟨Real.cos, Real.sin, Real.tan, Real.sqrt, Real.pi⟩ 1280 720 5 ⟨90, 90⟩ := by
  have h1 : (Camera ⟨Real.cos, Real.sin, Real.tan, Real.sqrt, Real.pi⟩ 1280 720 5 ⟨90, 90⟩).c0.w = 0 := by
    rw [Camera_eq_MVP_xy _ Real.sqrt_one (by ring)]
    simp only [Spec.MVP_xy, Spec.Perspective, Spec.Translate, Spec.RotateX, Spec.RotateY,
      Spec.Scale, mat4.mul_def, mat4.mul, vec4.add, vec4.smul, quarter_turn, Real.cos_neg,
      Real.sin_neg, Real.cos_pi_div_two, Real.sin_pi_div_two]
    norm_num
  have h2 : (Spec.MVP_stated ⟨Real.cos, Real.sin, Real.tan, Real.sqrt, Real.pi⟩ 1280 720 5 ⟨90, 90⟩).c0.w = -(1 / 2) := by
    simp only [Spec.MVP_stated, Spec.Perspective, Spec.Translate, Spec.RotateX, Spec.RotateY,
      Spec.Scale, mat4.mul_def, mat4.mul, vec4.add, vec4.smul, quarter_turn, Real.cos_neg,
      Real.sin_neg, Real.cos_pi_div_two, Real.sin_pi_div_two]
    norm_num
  refine ⟨h1, h2, fun h => ?_⟩
  rw [h] at h1
  rw [h1] at h2
  norm_num at h2

/-- Claim C1, amended. Over exact real arithmetic, for every window size, distance `d` and
rotation `(rx, ry)`, `Camera(d, (rx, ry))` equals
`Perspective(45 degrees, width/height, 0.1, 100) * Translate(0, 0, -d) * RotateX(-ry degrees)
* RotateY(-rx degrees) * Scale(0.5)`: the x rotation stands to the left of the y rotation. -/
theorem Camera_composition (width height : Int) (d : ℝ) (rotation : vec2 ℝ) :
    Camera ⟨Real.cos, Real.sin, Real.tan, Real.sqrt, Real.pi⟩ width height d rotation =
      Spec.Perspective ⟨Real.cos, Real.sin, Real.tan, Real.sqrt, Real.pi⟩ 45
          ((width : ℝ) / (height : ℝ)) (1 / 10) 100
        * Spec.Translate 0 0 (-d)
        * Spec.RotateX ⟨Real.cos, Real.sin, Real.tan, Real.sqrt, Real.pi⟩ (-rotation.y)
        * Spec.RotateY ⟨Real.cos, Real.sin, Real.tan, Real.sqrt, Real.pi⟩ (-rotation.x)
        * Spec.Scale (1 / 2) :=
  Camera_eq_MVP_xy _ Real.sqrt_one (by ring) width height d rotation

/-- Multiplying by the matrix of `glm::perspective` on the left: the aspect enters row 0 of
each column only. -/
theorem glm.perspective_mul {K : Type} [Field K] (ops : FloatOps K)
    (fovy aspect zNear zFar : K) (m : mat4 K) (c : Fin 4) :
    ((glm.perspective ops fovy aspect zNear zFar * m).col c).get 0 =
        1 / (aspect * ops.tan (fovy / 2)) * ((m.col c).get 0) ∧
    ((glm.perspective ops fovy aspect zNear zFar * m).col c).get 1 =
        1 / ops.tan (fovy / 2) * ((m.col c).get 1) ∧
    ((glm.perspective ops fovy aspect zNear zFar * m).col c).get 2 =
        -(zFar + zNear) / (zFar - zNear) * ((m.col c).get 2)
          + -(2 * zFar * zNear) / (zFar - zNear) * ((m.col c).get 3) ∧
    ((glm.perspective ops fovy aspect zNear zFar * m).col c).get 3 = -((m.col c).get 2) := by
  simp only [glm.perspective, mat4.mul_def, mat4.mul, vec4.add, vec4.smul]
  fin_cases c <;> simp [mat4.col, vec4.get]

/-- The aspect cancels from the first entry of the projection once multiplied back. -/
theorem aspect_cancel {K : Type} [Field K] (a1 a2 t x : K) (h1 : a1 ≠ 0) (h2 : a2 ≠ 0) :
    1 / (a1 * t) * x * a1 = 1 / (a2 * t) * x * a2 := by
  by_cases ht : t = 0
  · subst ht; simp
  · field_simp
    ring

/-- Claim C8. Over exact real arithmetic, whatever functions the float primitives are (so in
particular for the real `cos`, `sin`, `tan`, `sqrt` and `pi`), for a fixed distance and
rotation and two window sizes with positive width and height, the `Camera` matrices agree in
rows 1, 2 and 3 of every column `c` (the entries giving clip-space y, z and w), and in row 0
they satisfy `MVP1[c][0] * aspect1 = MVP2[c][0] * aspect2`. -/
theorem Camera_resize (ops : FloatOps ℝ) (d : ℝ) (rotation : vec2 ℝ) (w1 h1 w2 h2 : Int)
    (hw1 : 0 < w1) (hh1 : 0 < h1) (hw2 : 0 < w2) (hh2 : 0 < h2) (c : Fin 4) :
    ((Camera ops w1 h1 d rotation).col c).get 1 = ((Camera ops w2 h2 d rotation).col c).get 1 ∧
    ((Camera ops w1 h1 d rotation).col c).get 2 = ((Camera ops w2 h2 d rotation).col c).get 2 ∧
    ((Camera ops w1 h1 d rotation).col c).get 3 = ((Camera ops w2 h2 d rotation).col c).get 3 ∧
    ((Camera ops w1 h1 d rotation).col c).get 0 * ((w1 : ℝ) / (h1 : ℝ)) =
      ((Camera ops w2 h2 d rotation).col c).get 0 * ((w2 : ℝ) / (h2 : ℝ)) := by
  have ha1 : ((w1 : ℝ) / (h1 : ℝ)) ≠ 0 :=
    div_ne_zero (Int.cast_ne_zero.mpr hw1.ne') (Int.cast_ne_zero.mpr hh1.ne')
  have ha2 : ((w2 : ℝ) / (h2 : ℝ)) ≠ 0 :=
    div_ne_zero (Int.cast_ne_zero.mpr hw2.ne') (Int.cast_ne_zero.mpr hh2.ne')
  obtain ⟨m, hm⟩ : ∃ m : mat4 ℝ, ∀ w h : Int, Camera ops w h d rotation =
      glm.perspective ops (ops.pi * (1 / 4)) ((w : ℝ) / (h : ℝ)) (1 / 10) 100 * m :=
    ⟨_, fun w h => mat4.mul_assoc _ _ _⟩
  rw [hm w1 h1, hm w2 h2]
  obtain ⟨e0, e1, e2, e3⟩ := glm.perspective_mul ops
    (ops.pi * (1 / 4)) ((w1 : ℝ) / (h1 : ℝ)) (1 / 10) 100 m c
  obtain ⟨f0, f1, f2, f3⟩ := glm.perspective_mul ops
    (ops.pi * (1 / 4)) ((w2 : ℝ) / (h2 : ℝ)) (1 / 10) 100 m c
  refine ⟨by rw [e1, f1], by rw [e2, f2], by rw [e3, f3], ?_⟩
  rw [e0, f0]
  exact aspect_cancel _ _ _ _ ha1 ha2

/-- Claim C8 at a concrete resize with the real float primitives: from 1280x720 (16:9) to
800x600 (4:3), with distance 5 and rotation (30, 60), for column 0. -/
theorem Camera_resize_witness :
    ((0 : Int) < 1280 ∧ (0 : Int) < 720 ∧ (0 : Int) < 800 ∧ (0 : Int) < 600) ∧
    ((Camera ⟨Real.cos, Real.sin, Real.tan, Real.sqrt, Real.pi⟩ 1280 720 5 ⟨30, 60⟩).col 0).get 1 =
      ((Camera ⟨Real.cos, Real.sin, Real.tan, Real.sqrt, Real.pi⟩ 800 600 5 ⟨30, 60⟩).col 0).get 1 ∧
    ((Camera ⟨Real.cos, Real.sin, Real.tan, Real.sqrt, Real.pi⟩ 1280 720 5 ⟨30, 60⟩).col 0).get 2 =
      ((Camera ⟨Real.cos, Real.sin, Real.tan, Real.sqrt, Real.pi⟩ 800 600 5 ⟨30, 60⟩).col 0).get 2 ∧
    ((Camera ⟨Real.cos, Real.sin, Real.tan, Real.sqrt, Real.pi⟩ 1280 720 5 ⟨30, 60⟩).col 0).get 3 =
      ((Camera ⟨Real.cos, Real.sin, Real.tan, Real.sqrt, Real.pi⟩ 800 600 5 ⟨30, 60⟩).col 0).get 3 ∧
    ((Camera ⟨Real.cos, Real.sin, Real.tan, Real.sqrt, Real.pi⟩ 1280 720 5 ⟨30, 60⟩).col 0).get 0
        * (((1280 : Int) : ℝ) / ((720 : Int) : ℝ)) =
      ((Camera ⟨Real.cos, Real.sin, Real.tan, Real.sqrt, Real.pi⟩ 800 600 5 ⟨30, 60⟩).col 0).get 0
        * (((800 : Int) : ℝ) / ((600 : Int) : ℝ)) :=
  ⟨⟨by decide, by decide, by decide, by decide⟩,
    Camera_resize ⟨Real.cos, Real.sin, Real.tan, Real.sqrt, Real.pi⟩ 5 ⟨30, 60⟩ 1280 720 800 600
      (by decide) (by decide) (by decide) (by decide) 0⟩

end CubeFastRendering
